import Mathlib

/-!
# Verification of the ndn-tlv TLV codec core

A shallow embedding of the `ndn-tlv` Rust crate: the `VarNum` variable-width
integer codec (`src/varnum.rs`), the criticality rule and streaming reader
(`src/tlv.rs`), the error enum (`src/error.rs`, extended with the two variants
`lib.rs` and `tlv.rs` construct), and the generic encode/decode instantiations
plus `find_tlv` (`src/lib.rs`).

Buffers (`bytes::Bytes` cursors) are modelled as `List Nat` of octet values;
a decode returns the decoded value together with the remaining buffer.
Operations of the `bytes` crate that panic on out-of-range arguments
(`Buf::advance`, slice indexing, overflow-checked subtraction) are modelled
by an explicit `panicked` outcome, so that panic-freedom is a provable
statement rather than a modelling artifact.
-/

namespace NdnTlv

/-- An octet buffer / cursor: the sequence of octets still to be consumed. -/
abbrev Buffer := List Nat

/-- `TlvError` from `src/error.rs`. The enum in `error.rs` declares
`TypeMismatch` and `UnexpectedEndOfStream`; `lib.rs` additionally constructs
`TlvError::UnexpectedLength` and `tlv.rs` constructs `TlvError::IOError`, so
those variants are part of the crate's error type as used. -/
inductive TlvError where
  | TypeMismatch (expected found : Nat) : TlvError
  | UnexpectedEndOfStream : TlvError
  | UnexpectedLength : TlvError
  | IOError : TlvError
deriving DecidableEq, Repr

/-- Outcome of a decode step on a cursor: success with the value and the
remaining buffer, a typed error, or a Rust panic (out-of-bounds access,
failed `advance`, arithmetic overflow). -/
inductive PResult (α : Type) where
  | ok : α → Buffer → PResult α
  | err : TlvError → PResult α
  | panicked : PResult α
deriving DecidableEq, Repr

/-- Big-endian value of a list of octets (`get_u16`/`get_u32`/`get_u64`). -/
def beVal (l : Buffer) : Nat := l.foldl (fun acc d => acc * 256 + d) 0

/-- Big-endian octets of `v`'s low `w` bytes (`put_u16`/`put_u32`/`put_u64`,
including the truncating `as uN` casts). -/
def beBytes : Nat → Nat → Buffer
  | 0, _ => []
  | w + 1, v => beBytes w (v / 256) ++ [v % 256]

theorem beVal_nil : beVal [] = 0 := rfl

theorem beVal_append_single (l : Buffer) (d : Nat) :
    beVal (l ++ [d]) = beVal l * 256 + d := by
  simp [beVal, List.foldl_append]

theorem length_beBytes (w v : Nat) : (beBytes w v).length = w := by
  induction w generalizing v with
  | zero => rfl
  | succ w ih => simp [beBytes, ih]

theorem beVal_beBytes (w v : Nat) : beVal (beBytes w v) = v % 256 ^ w := by
  induction w generalizing v with
  | zero => simp [beBytes, beVal, Nat.mod_one]
  | succ w ih =>
    rw [beBytes, beVal_append_single, ih]
    have hpow : (256 : Nat) ^ (w + 1) = 256 * 256 ^ w := by
      rw [pow_succ, Nat.mul_comm]
    rw [hpow]
    have h1 : v % (256 * 256 ^ w) / 256 = v / 256 % 256 ^ w :=
      Nat.mod_mul_right_div_self v 256 (256 ^ w)
    have h2 : v % (256 * 256 ^ w) % 256 = v % 256 :=
      Nat.mod_mod_of_dvd v ⟨256 ^ w, rfl⟩
    have h3 := Nat.div_add_mod (v % (256 * 256 ^ w)) 256
    omega

theorem beBytes_lt (w v : Nat) : ∀ x ∈ beBytes w v, x < 256 := by
  induction w generalizing v with
  | zero => simp [beBytes]
  | succ w ih =>
    intro x hx
    rw [beBytes] at hx
    rcases List.mem_append.mp hx with h | h
    · exact ih _ x h
    · simp at h
      omega

/-! ## VarNum (`src/varnum.rs`) -/

/-- `impl TlvEncode for VarNum`, `fn encode`: minimal-width form keyed by
the value's magnitude; multi-octet forms are a marker octet followed by the
big-endian fixed-width payload (`as u16`/`as u32` truncate, hence the `%`
inside `beBytes`). -/
def varNumEncode (v : Nat) : Buffer :=
  if v ≤ 0xFC then [v % 256]
  else if v ≤ 0xFFFF then 0xFD :: beBytes 2 v
  else if v ≤ 0xFFFFFFFF then 0xFE :: beBytes 4 v
  else 0xFF :: beBytes 8 v

/-- `impl TlvEncode for VarNum`, `fn size`. -/
def varNumSize (v : Nat) : Nat :=
  if v ≤ 0xFC then 1
  else if v ≤ 0xFFFF then 3
  else if v ≤ 0xFFFFFFFF then 5
  else 9

/-- `impl TlvDecode for VarNum`, `fn decode`: empty cursor is
`UnexpectedEndOfStream`; a first octet `≤ 0xFC` is the value; markers
`0xFD`/`0xFE`/`0xFF` demand 2/4/8 further octets (else
`UnexpectedEndOfStream`) read big-endian. The final branch is the `0xFF`
arm of the source's exhaustive `u8` match. -/
def varNumDecode : Buffer → PResult Nat
  | [] => .err .UnexpectedEndOfStream
  | first :: rest =>
    if first ≤ 0xFC then .ok first rest
    else if first = 0xFD then
      if rest.length < 2 then .err .UnexpectedEndOfStream
      else .ok (beVal (rest.take 2)) (rest.drop 2)
    else if first = 0xFE then
      if rest.length < 4 then .err .UnexpectedEndOfStream
      else .ok (beVal (rest.take 4)) (rest.drop 4)
    else
      if rest.length < 8 then .err .UnexpectedEndOfStream
      else .ok (beVal (rest.take 8)) (rest.drop 8)

/-- A successful `VarNum::decode` consumes at least the first octet. -/
theorem varNumDecode_length_lt {b b' : Buffer} {v : Nat}
    (h : varNumDecode b = .ok v b') : b'.length < b.length := by
  match b with
  | [] => simp [varNumDecode] at h
  | first :: rest =>
    rw [varNumDecode] at h
    split at h
    · cases h
      simp
    · split at h
      · split at h
        · cases h
        · cases h
          simp
          omega
      · split at h
        · split at h
          · cases h
          · cases h
            simp
            omega
        · split at h
          · cases h
          · cases h
            simp
            omega

/-! ## Criticality rule and `find_tlv` -/

/-- `tlv_typ_critical` from `src/tlv.rs`: `typ < 32 || typ & 1 == 1`. -/
def tlvTypCritical (typ : Nat) : Bool :=
  decide (typ < 32) || decide (typ % 2 = 1)

/-- The loop of `find_tlv` from `src/lib.rs`, fuel-indexed. At each loop head
the real cursor `bytes` coincides with the scratch cursor `cur` (initially
`cur = bytes.clone()`; each skip iteration ends with
`bytes.advance(bytes.remaining() - cur.remaining())`, equalising them), so the
state is one buffer. `cur.advance(length)` with `length` exceeding the
remaining octets is a `bytes::Buf` panic, modelled as `panicked`; fuel
exhaustion cannot occur from `findTlv`'s wrapper since every iteration
consumes at least one octet. -/
def findTlvAux (typ : Nat) (eoc : Bool) : Nat → Buffer → PResult Unit
  | 0, _ => .panicked
  | fuel + 1, b =>
    if b.isEmpty then .err .UnexpectedEndOfStream
    else
      match varNumDecode b with
      | .err e => .err e
      | .panicked => .panicked
      | .ok foundTyp cur1 =>
        if foundTyp = typ then .ok () b
        else if eoc && tlvTypCritical foundTyp then
          .err (.TypeMismatch typ foundTyp)
        else
          match varNumDecode cur1 with
          | .err e => .err e
          | .panicked => .panicked
          | .ok len cur2 =>
            if len ≤ cur2.length then findTlvAux typ eoc fuel (cur2.drop len)
            else .panicked

/-- `find_tlv::<T>` from `src/lib.rs` for `T::TYP = typ`; on success the
returned buffer is the final position of the caller's cursor. -/
def findTlv (typ : Nat) (eoc : Bool) (b : Buffer) : PResult Unit :=
  findTlvAux typ eoc (b.length + 1) b

/-! ## `NonNegativeInteger` (`src/lib.rs`) -/

/-- `NonNegativeInteger`: an integer of one of the four fixed widths. -/
inductive NonNegativeInteger where
  | U8 : Nat → NonNegativeInteger
  | U16 : Nat → NonNegativeInteger
  | U32 : Nat → NonNegativeInteger
  | U64 : Nat → NonNegativeInteger
deriving DecidableEq, Repr

/-- `impl TlvEncode for NonNegativeInteger`, `fn encode`: the value in its
variant's fixed width, big-endian. -/
def nniEncode : NonNegativeInteger → Buffer
  | .U8 n => beBytes 1 n
  | .U16 n => beBytes 2 n
  | .U32 n => beBytes 4 n
  | .U64 n => beBytes 8 n

/-- `impl TlvEncode for NonNegativeInteger`, `fn size`. -/
def nniSize : NonNegativeInteger → Nat
  | .U8 _ => 1
  | .U16 _ => 2
  | .U32 _ => 4
  | .U64 _ => 8

/-- `impl TlvDecode for NonNegativeInteger`, `fn decode`: dispatch on
`bytes.remaining()`; a matching `get_uN` consumes the whole buffer. -/
def nniDecode (b : Buffer) : PResult NonNegativeInteger :=
  match b.length with
  | 1 => .ok (.U8 (beVal b)) []
  | 2 => .ok (.U16 (beVal b)) []
  | 4 => .ok (.U32 (beVal b)) []
  | 8 => .ok (.U64 (beVal b)) []
  | _ => .err .UnexpectedLength

/-! ## Generic container instantiations (`src/lib.rs`) -/

/-- `impl TlvEncode for Bytes`: `encode` is `self.clone()`. -/
def bytesEncode (b : Buffer) : Buffer := b

/-- `impl TlvEncode for Bytes`: `size` is `self.len()`. -/
def bytesSize (b : Buffer) : Nat := b.length

/-- `impl TlvDecode for Bytes`: `copy_to_bytes(remaining)` consumes the whole
cursor. -/
def bytesDecode (b : Buffer) : PResult Buffer := .ok b []

/-- `impl TlvEncode for [u8; N]`: copy of the N octets. -/
def arrayEncode (N : Nat) (f : Fin N → Nat) : Buffer := List.ofFn f

/-- `impl TlvDecode for [u8; N]`: fewer than `N` remaining octets is
`UnexpectedEndOfStream`, else `copy_to_slice` consumes exactly `N`. -/
def arrayDecode (N : Nat) (b : Buffer) : PResult Buffer :=
  if b.length < N then .err .UnexpectedEndOfStream
  else .ok (b.take N) (b.drop N)

/-- `impl TlvDecode` for the fixed-width unsigned integers (`u8`…`u64`) at
width `w` octets: fewer than `w` remaining is `UnexpectedEndOfStream`, else
`get_uN` reads `w` octets big-endian. -/
def uintDecode (w : Nat) (b : Buffer) : PResult Nat :=
  if b.length < w then .err .UnexpectedEndOfStream
  else .ok (beVal (b.take w)) (b.drop w)

/-- `impl TlvEncode` for the fixed-width unsigned integers at width `w`. -/
def uintEncode (w v : Nat) : Buffer := beBytes w v

/-- `impl TlvEncode` for the fixed-width signed integers at width `w`:
`put_iN` writes the two's-complement octets, i.e. the big-endian form of
`v mod 2^(8w)`. -/
def intEncode (w : Nat) (v : Int) : Buffer :=
  beBytes w (v % ((2 : Int) ^ (8 * w))).toNat

/-- `impl TlvEncode for ()`: zero octets. -/
def unitEncode : Buffer := []

/-- `impl TlvDecode for ()`: succeeds consuming nothing. -/
def unitDecode (b : Buffer) : PResult Unit := .ok () b

/-- `impl<T> TlvEncode for Vec<T>`, `fn encode`: each element's encoding in
order. -/
def vecEncode {α : Type} (enc : α → Buffer) (l : List α) : Buffer :=
  (l.map enc).flatten

/-- `impl<T> TlvEncode for Vec<T>`, `fn size`: sum of element sizes
(`reduce(+).unwrap_or(0)`). -/
def vecSize {α : Type} (sz : α → Nat) (l : List α) : Nat :=
  (l.map sz).sum

/-- `impl<T> TlvEncode for Option<T>`, `fn encode`. -/
def optionEncode {α : Type} (enc : α → Buffer) : Option α → Buffer
  | none => []
  | some v => enc v

/-- `impl<T> TlvEncode for Option<T>`, `fn size`. -/
def optionSize {α : Type} (sz : α → Nat) : Option α → Nat
  | none => 0
  | some v => sz v

/-- `impl<T> TlvDecode for Vec<T>`, `fn decode`, fuel-indexed (the Rust loop
does not terminate when `T::decode` succeeds consuming nothing; fuel
exhaustion models that). Each iteration runs `T::decode` on a clone and on
success advances the real cursor by the consumed span
(`remaining - bytes_clone.remaining()`); a `TypeMismatch` ends the loop
returning the elements collected so far; other errors propagate. -/
def vecDecodeAux {α : Type} (d : Buffer → PResult α) : Nat → Buffer → PResult (List α)
  | 0, _ => .panicked
  | fuel + 1, b =>
    if b.isEmpty then .ok [] b
    else
      match d b with
      | .ok t b1 =>
        match vecDecodeAux d fuel (b.drop (b.length - b1.length)) with
        | .ok ts rest => .ok (t :: ts) rest
        | r => r
      | .err (.TypeMismatch _ _) => .ok [] b
      | .err e => .err e
      | .panicked => .panicked

/-- `impl<T> TlvDecode for Vec<T>` with the canonical fuel: ample whenever
every successful `T::decode` consumes at least one octet. -/
def vecDecode {α : Type} (d : Buffer → PResult α) (b : Buffer) : PResult (List α) :=
  vecDecodeAux d (b.length + 1) b

/-- `impl<T> TlvDecode for Option<T>`, `fn decode`: run `T::decode` on a
clone; success commits the consumed span and is `Some`; `TypeMismatch` or
`UnexpectedEndOfStream` is `Ok(None)` with the cursor untouched; other
errors propagate. -/
def optionDecode {α : Type} (d : Buffer → PResult α) (b : Buffer) : PResult (Option α) :=
  match d b with
  | .ok v b1 => .ok (some v) (b.drop (b.length - b1.length))
  | .err (.TypeMismatch _ _) => .ok none b
  | .err .UnexpectedEndOfStream => .ok none b
  | .err e => .err e
  | .panicked => .panicked

/-- Modelled from the spec: the derive-generated `TlvDecode` implementation
for an application record of type number `typ` whose single field is a raw
octet span (missing from `src/` — it is produced by the external `ndn-tlv-derive`
generator; §6 of the spec fixes its shape: read and check the type header,
surfacing `TypeMismatch` on a differing leading type, read the length, slice
exactly `length` payload octets — `UnexpectedEndOfStream` when fewer remain —
and decode the field from that isolated cursor). -/
def tlvRecordDecode (typ : Nat) (b : Buffer) : PResult Buffer :=
  match varNumDecode b with
  | .err e => .err e
  | .panicked => .panicked
  | .ok foundTyp rest =>
    if foundTyp ≠ typ then .err (.TypeMismatch typ foundTyp)
    else
      match varNumDecode rest with
      | .err e => .err e
      | .panicked => .panicked
      | .ok len rest2 =>
        if rest2.length < len then .err .UnexpectedEndOfStream
        else .ok (rest2.take len) (rest2.drop len)

/-! ## Streaming reader `Tlv::from_reader` (`src/tlv.rs`) -/

/-- Outcome of `Tlv::from_reader` up to the hand-off to `Self::decode`. -/
inductive ReaderResult where
  | assembled : Buffer → ReaderResult
  | failed : TlvError → ReaderResult
  | panicked : ReaderResult
deriving DecidableEq, Repr

/-- The read loop of `Tlv::from_reader`, fuel-indexed; `none` means the loop
is still running after `fuel` iterations. The byte source is modelled as the
list of octets it still holds; a `read` into a slice of length `left` returns
`min left src.length` octets and never fails. Faithful details: the slice
`buf[0..left_to_read]` of the 1024-octet scratch buffer panics when
`left_to_read > 1024`; `bytes.put(&buf[..left_to_read])` appends `left_to_read`
octets — the freshly read ones followed by stale scratch octets (zeros of the
initialisation, for a first iteration) — and only then is `left_to_read`
reduced by the octet count actually read. -/
def readLoopAux (src acc : Buffer) (left : Nat) : Nat → Option ReaderResult
  | 0 => none
  | fuel + 1 =>
    if left = 0 then some (.assembled acc)
    else if 1024 < left then some .panicked
    else
      let k := min left src.length
      readLoopAux (src.drop k)
        (acc ++ (src.take k ++ List.replicate (left - k) 0)) (left - k) fuel

/-- `Tlv::from_reader` for expected type number `typ`, from the probe read to
the end of the read loop, with `fuel` bounding the loop's iterations (`none`
when the loop has not finished within `fuel`). The probe reads up to 18
octets into an 18-octet zeroed buffer, and `Bytes::copy_from_slice(&header_buf)`
copies the whole 18 octets, zero padding included; `total_len - bytes_read`
is an overflow-checked `usize` subtraction, a panic when the probe read more
than the whole record. -/
def fromReaderCore (typ : Nat) (src : Buffer) (fuel : Nat) : Option ReaderResult :=
  let bytesRead := min 18 src.length
  let headerBuf := src.take bytesRead ++ List.replicate (18 - bytesRead) 0
  match varNumDecode headerBuf with
  | .err e => some (.failed e)
  | .panicked => some .panicked
  | .ok foundTyp hrest =>
    if foundTyp ≠ typ then some (.failed (.TypeMismatch typ foundTyp))
    else
      match varNumDecode hrest with
      | .err e => some (.failed e)
      | .panicked => some .panicked
      | .ok len _ =>
        let totalLen := varNumSize foundTyp + varNumSize len + len
        if totalLen < bytesRead then some .panicked
        else
          readLoopAux (src.drop bytesRead) (headerBuf.take bytesRead)
            (totalLen - bytesRead) fuel

/-! ## VarNum lemmas -/

theorem varNumEncode_low {v : Nat} (h : v ≤ 0xFC) : varNumEncode v = [v] := by
  rw [varNumEncode, if_pos h, Nat.mod_eq_of_lt (by omega)]

theorem varNumDecode_low {v : Nat} (h : v ≤ 0xFC) :
    varNumDecode [v] = .ok v [] := by
  rw [varNumDecode, if_pos h]

theorem varNumDecode_fd {v : Nat} (h : v < 2 ^ 16) (rest : Buffer) :
    varNumDecode (0xFD :: (beBytes 2 v ++ rest)) = .ok v rest := by
  have hl : (beBytes 2 v).length = 2 := length_beBytes 2 v
  have hv : beVal (beBytes 2 v) = v := by
    rw [beVal_beBytes]
    exact Nat.mod_eq_of_lt (lt_of_lt_of_le h (by norm_num))
  rw [varNumDecode, if_neg (by norm_num), if_pos rfl,
    if_neg (by simp [hl]), List.take_append_of_le_length (le_of_eq hl.symm),
    List.take_of_length_le (le_of_eq hl), hv,
    List.drop_append_of_le_length (le_of_eq hl.symm),
    List.drop_eq_nil_of_le (le_of_eq hl), List.nil_append]

theorem varNumDecode_fe {v : Nat} (h : v < 2 ^ 32) (rest : Buffer) :
    varNumDecode (0xFE :: (beBytes 4 v ++ rest)) = .ok v rest := by
  have hl : (beBytes 4 v).length = 4 := length_beBytes 4 v
  have hv : beVal (beBytes 4 v) = v := by
    rw [beVal_beBytes]
    exact Nat.mod_eq_of_lt (lt_of_lt_of_le h (by norm_num))
  rw [varNumDecode, if_neg (by norm_num), if_neg (by norm_num), if_pos rfl,
    if_neg (by simp [hl]), List.take_append_of_le_length (le_of_eq hl.symm),
    List.take_of_length_le (le_of_eq hl), hv,
    List.drop_append_of_le_length (le_of_eq hl.symm),
    List.drop_eq_nil_of_le (le_of_eq hl), List.nil_append]

theorem varNumDecode_ff {v : Nat} (h : v < 2 ^ 64) (rest : Buffer) :
    varNumDecode (0xFF :: (beBytes 8 v ++ rest)) = .ok v rest := by
  have hl : (beBytes 8 v).length = 8 := length_beBytes 8 v
  have hv : beVal (beBytes 8 v) = v := by
    rw [beVal_beBytes]
    exact Nat.mod_eq_of_lt (lt_of_lt_of_le h (by norm_num))
  rw [varNumDecode, if_neg (by norm_num), if_neg (by norm_num),
    if_neg (by norm_num), if_neg (by simp [hl]),
    List.take_append_of_le_length (le_of_eq hl.symm),
    List.take_of_length_le (le_of_eq hl), hv,
    List.drop_append_of_le_length (le_of_eq hl.symm),
    List.drop_eq_nil_of_le (le_of_eq hl), List.nil_append]

/-- C2: for every `u64` value `v`, `VarNum::decode ∘ VarNum::new(v).encode`
succeeds, consumes the whole encoding, and yields `v`; and `encode` emits the
minimal-width form for `v`'s magnitude: one octet equal to `v` when
`v ≤ 0xFC`, marker `0xFD` plus 2 big-endian octets carrying `v` when
`0xFD ≤ v ≤ 0xFFFF`, marker `0xFE` plus 4 when `0x10000 ≤ v ≤ 0xFFFFFFFF`,
and marker `0xFF` plus 8 otherwise. -/
theorem varNum_roundtrip_minimal (v : Nat) (h : v < 2 ^ 64) :
    varNumDecode (varNumEncode v) = .ok v []
    ∧ (v ≤ 0xFC → varNumEncode v = [v])
    ∧ (0xFD ≤ v → v ≤ 0xFFFF →
        varNumEncode v = 0xFD :: beBytes 2 v ∧ (beBytes 2 v).length = 2
          ∧ beVal (beBytes 2 v) = v)
    ∧ (0x10000 ≤ v → v ≤ 0xFFFFFFFF →
        varNumEncode v = 0xFE :: beBytes 4 v ∧ (beBytes 4 v).length = 4
          ∧ beVal (beBytes 4 v) = v)
    ∧ (0x100000000 ≤ v →
        varNumEncode v = 0xFF :: beBytes 8 v ∧ (beBytes 8 v).length = 8
          ∧ beVal (beBytes 8 v) = v) := by
  refine ⟨?_, fun h1 => varNumEncode_low h1, ?_, ?_, ?_⟩
  · by_cases h1 : v ≤ 0xFC
    · rw [varNumEncode_low h1]
      exact varNumDecode_low h1
    · by_cases h2 : v ≤ 0xFFFF
      · rw [varNumEncode, if_neg h1, if_pos h2, ← List.append_nil (beBytes 2 v)]
        exact varNumDecode_fd (by omega) []
      · by_cases h3 : v ≤ 0xFFFFFFFF
        · rw [varNumEncode, if_neg h1, if_neg h2, if_pos h3,
            ← List.append_nil (beBytes 4 v)]
          exact varNumDecode_fe (by omega) []
        · rw [varNumEncode, if_neg h1, if_neg h2, if_neg h3,
            ← List.append_nil (beBytes 8 v)]
          exact varNumDecode_ff (by omega) []
  · intro h1 h2
    refine ⟨by rw [varNumEncode, if_neg (by omega), if_pos h2],
      length_beBytes 2 v, ?_⟩
    rw [beVal_beBytes]
    exact Nat.mod_eq_of_lt (by norm_num; omega)
  · intro h1 h2
    refine ⟨by rw [varNumEncode, if_neg (by omega), if_neg (by omega), if_pos h2],
      length_beBytes 4 v, ?_⟩
    rw [beVal_beBytes]
    exact Nat.mod_eq_of_lt (by norm_num; omega)
  · intro h1
    refine ⟨by rw [varNumEncode, if_neg (by omega), if_neg (by omega),
      if_neg (by omega)], length_beBytes 8 v, ?_⟩
    rw [beVal_beBytes]
    exact Nat.mod_eq_of_lt (by norm_num; omega)

/-- Witness for C2 at `v = 70000` (the 5-octet marker range). -/
theorem varNum_roundtrip_minimal_witness :
    varNumDecode (varNumEncode 70000) = .ok 70000 []
      ∧ varNumEncode 70000 = 0xFE :: beBytes 4 70000 :=
  ⟨(varNum_roundtrip_minimal 70000 (by norm_num)).1,
    (((varNum_roundtrip_minimal 70000 (by norm_num)).2.2.2.1
      (by norm_num) (by norm_num)).1)⟩

/-- C7: `VarNum::decode` fails with `UnexpectedEndOfStream` on an empty
cursor, and on any cursor whose first octet is the marker `0xFD`, `0xFE` or
`0xFF` followed by fewer than 2, 4 or 8 octets respectively. -/
theorem varNum_truncation :
    varNumDecode [] = .err .UnexpectedEndOfStream
    ∧ (∀ rest : Buffer, rest.length < 2 →
        varNumDecode (0xFD :: rest) = .err .UnexpectedEndOfStream)
    ∧ (∀ rest : Buffer, rest.length < 4 →
        varNumDecode (0xFE :: rest) = .err .UnexpectedEndOfStream)
    ∧ (∀ rest : Buffer, rest.length < 8 →
        varNumDecode (0xFF :: rest) = .err .UnexpectedEndOfStream) := by
  refine ⟨rfl, fun rest hr => ?_, fun rest hr => ?_, fun rest hr => ?_⟩
  · rw [varNumDecode, if_neg (by norm_num), if_pos rfl, if_pos hr]
  · rw [varNumDecode, if_neg (by norm_num), if_neg (by norm_num), if_pos rfl,
      if_pos hr]
  · rw [varNumDecode, if_neg (by norm_num), if_neg (by norm_num),
      if_neg (by norm_num), if_pos hr]

/-- Witness for C7: the marker `0xFD` followed by a single octet. -/
theorem varNum_truncation_witness :
    varNumDecode [0xFD, 7] = .err .UnexpectedEndOfStream :=
  varNum_truncation.2.1 [7] (by norm_num)

/-- C8: a marker-form encoding wide enough for the value decodes to the
value even when a narrower form would have sufficed; in particular
`[0xFD, 0x00, 0x05]` decodes to `5`. -/
theorem varNum_wide_decode (v : Nat) :
    (v < 2 ^ 16 → varNumDecode (0xFD :: beBytes 2 v) = .ok v [])
    ∧ (v < 2 ^ 32 → varNumDecode (0xFE :: beBytes 4 v) = .ok v [])
    ∧ (v < 2 ^ 64 → varNumDecode (0xFF :: beBytes 8 v) = .ok v []) := by
  refine ⟨fun h => ?_, fun h => ?_, fun h => ?_⟩
  · rw [← List.append_nil (beBytes 2 v)]
    exact varNumDecode_fd h []
  · rw [← List.append_nil (beBytes 4 v)]
    exact varNumDecode_fe h []
  · rw [← List.append_nil (beBytes 8 v)]
    exact varNumDecode_ff h []

/-- Witness for C8: the 3-octet form of `5`, `[0xFD, 0x00, 0x05]`. -/
theorem varNum_wide_decode_witness :
    varNumDecode [0xFD, 0x00, 0x05] = .ok 5 [] := by
  have h := (varNum_wide_decode 5).1 (by norm_num)
  simpa [beBytes] using h

/-- C10: `NonNegativeInteger::decode` succeeds exactly on remaining sizes 1,
2, 4, 8, consuming everything as a big-endian integer of that width, and
fails with `UnexpectedLength` on every other size. -/
theorem nni_decode_spec (b : Buffer) :
    (b.length = 1 → nniDecode b = .ok (.U8 (beVal b)) [])
    ∧ (b.length = 2 → nniDecode b = .ok (.U16 (beVal b)) [])
    ∧ (b.length = 4 → nniDecode b = .ok (.U32 (beVal b)) [])
    ∧ (b.length = 8 → nniDecode b = .ok (.U64 (beVal b)) [])
    ∧ (b.length ≠ 1 → b.length ≠ 2 → b.length ≠ 4 → b.length ≠ 8 →
        nniDecode b = .err .UnexpectedLength) := by
  refine ⟨fun h => ?_, fun h => ?_, fun h => ?_, fun h => ?_,
    fun h1 h2 h4 h8 => ?_⟩ <;> rw [nniDecode]
  · rw [h]
  · rw [h]
  · rw [h]
  · rw [h]
  · rcases hl : b.length with _ | _ | _ | _ | _ | _ | _ | _ | _ | n <;>
      simp_all [nniDecode]

/-- Witness for C10 at the buffer `[1, 2]`. -/
theorem nni_decode_spec_witness :
    nniDecode [1, 2] = .ok (.U16 (beVal [1, 2])) [] :=
  (nni_decode_spec [1, 2]).2.1 rfl

/-! ## Fuel irrelevance for the loops -/

/-- Every `find_tlv` iteration consumes at least one octet of the scratch
cursor, so any fuel above the buffer length computes the same result. -/
theorem findTlvAux_fuel (typ : Nat) (eoc : Bool) :
    ∀ f1 : Nat, ∀ b : Buffer, ∀ f2 : Nat, b.length < f1 → b.length < f2 →
      findTlvAux typ eoc f1 b = findTlvAux typ eoc f2 b := by
  intro f1
  induction f1 with
  | zero => intro b f2 h1 h2; omega
  | succ f1 ih =>
    intro b f2 h1 h2
    match f2, h2 with
    | f2 + 1, h2 =>
      rw [findTlvAux, findTlvAux]
      by_cases hb : b.isEmpty
      · rw [if_pos hb, if_pos hb]
      · rw [if_neg hb, if_neg hb]
        cases hd : varNumDecode b with
        | err e => rfl
        | panicked => rfl
        | ok t cur1 =>
          dsimp only
          by_cases ht : t = typ
          · rw [if_pos ht, if_pos ht]
          · rw [if_neg ht, if_neg ht]
            by_cases hcrit : (eoc && tlvTypCritical t) = true
            · rw [if_pos hcrit, if_pos hcrit]
            · rw [if_neg hcrit, if_neg hcrit]
              cases hd2 : varNumDecode cur1 with
              | err e => rfl
              | panicked => rfl
              | ok len cur2 =>
                dsimp only
                by_cases hlen : len ≤ cur2.length
                · rw [if_pos hlen, if_pos hlen]
                  have hc1 := varNumDecode_length_lt hd
                  have hc2 := varNumDecode_length_lt hd2
                  have hdl : (cur2.drop len).length = cur2.length - len :=
                    List.length_drop len cur2
                  exact ih (cur2.drop len) f2 (by omega) (by omega)
                · rw [if_neg hlen, if_neg hlen]

/-- When every successful element decode consumes at least one octet, any
fuel above the buffer length computes the same `Vec::decode` result. -/
theorem vecDecodeAux_fuel {α : Type} (d : Buffer → PResult α)
    (hprog : ∀ c t c1, d c = .ok t c1 → c1.length < c.length) :
    ∀ f1 : Nat, ∀ b : Buffer, ∀ f2 : Nat, b.length < f1 → b.length < f2 →
      vecDecodeAux d f1 b = vecDecodeAux d f2 b := by
  intro f1
  induction f1 with
  | zero => intro b f2 h1 h2; omega
  | succ f1 ih =>
    intro b f2 h1 h2
    match f2, h2 with
    | f2 + 1, h2 =>
      rw [vecDecodeAux, vecDecodeAux]
      by_cases hb : b.isEmpty
      · rw [if_pos hb, if_pos hb]
      · rw [if_neg hb, if_neg hb]
        cases hd : d b with
        | err e => cases e <;> rfl
        | panicked => rfl
        | ok t b1 =>
          dsimp only
          have hc := hprog b t b1 hd
          have hdl : (b.drop (b.length - b1.length)).length
              = b.length - (b.length - b1.length) :=
            List.length_drop _ b
          rw [ih (b.drop (b.length - b1.length)) f2 (by omega) (by omega)]

/-- A successful `tlvRecordDecode` consumes at least the record's header. -/
theorem tlvRecordDecode_length_lt {typ : Nat} {b b1 p : Buffer}
    (h : tlvRecordDecode typ b = .ok p b1) : b1.length < b.length := by
  rw [tlvRecordDecode] at h
  cases hd : varNumDecode b with
  | err e => rw [hd] at h; exact (PResult.noConfusion h)
  | panicked => rw [hd] at h; exact (PResult.noConfusion h)
  | ok t rest =>
    rw [hd] at h
    dsimp only at h
    split at h
    · exact (PResult.noConfusion h)
    · cases hd2 : varNumDecode rest with
      | err e => rw [hd2] at h; exact (PResult.noConfusion h)
      | panicked => rw [hd2] at h; exact (PResult.noConfusion h)
      | ok len rest2 =>
        rw [hd2] at h
        dsimp only at h
        split at h
        · exact (PResult.noConfusion h)
        · cases h
          have hc1 := varNumDecode_length_lt hd
          have hc2 := varNumDecode_length_lt hd2
          have := List.length_drop len rest2
          omega

/-! ## Claim theorems for the container decodes and `find_tlv` -/

/-- C4: `Vec<T>::decode` yields `Ok []` on an empty cursor; stops with the
elements collected so far, cursor at the mismatching record, on a
`TypeMismatch`; propagates any other failure; and on a success appends the
element, advances by exactly the consumed span, and continues. The example
buffer of two type-8 records followed by `[33, 0]` yields the two payloads
and leaves `[33, 0]` unconsumed. -/
theorem vec_decode_spec :
    (∀ (α : Type) (d : Buffer → PResult α),
      (∀ c t c1, d c = .ok t c1 → c1.length < c.length) →
      vecDecode d [] = .ok [] []
      ∧ (∀ b e f, b ≠ [] → d b = .err (.TypeMismatch e f) →
          vecDecode d b = .ok [] b)
      ∧ (∀ b e, b ≠ [] → d b = .err e → (∀ x y, e ≠ .TypeMismatch x y) →
          vecDecode d b = .err e)
      ∧ (∀ b t b1, d b = .ok t b1 →
          vecDecode d b =
            match vecDecode d (b.drop (b.length - b1.length)) with
            | .ok ts rest => .ok (t :: ts) rest
            | r => r))
    ∧ vecDecode (tlvRecordDecode 8)
        [8, 5, 104, 101, 108, 108, 111, 8, 5, 119, 111, 114, 108, 100, 33, 0]
      = .ok [[104, 101, 108, 108, 111], [119, 111, 114, 108, 100]] [33, 0] := by
  constructor
  · intro α d hprog
    refine ⟨rfl, fun b e f hb hd => ?_, fun b e hb hd hne => ?_,
      fun b t b1 hd => ?_⟩
    · rw [vecDecode, vecDecodeAux, if_neg (by simpa using hb), hd]
    · rw [vecDecode, vecDecodeAux, if_neg (by simpa using hb), hd]
      cases e with
      | TypeMismatch x y => exact absurd rfl (hne x y)
      | UnexpectedEndOfStream => rfl
      | UnexpectedLength => rfl
      | IOError => rfl
    · have hc := hprog b t b1 hd
      have hb : ¬b.isEmpty = true := by
        cases b with
        | nil => simp at hc
        | cons x xs => simp
      have hdl : (b.drop (b.length - b1.length)).length
          = b.length - (b.length - b1.length) :=
        List.length_drop _ b
      rw [vecDecode, vecDecodeAux, if_neg hb, hd]
      dsimp only
      rw [vecDecodeAux_fuel d hprog b.length (b.drop (b.length - b1.length))
          ((b.drop (b.length - b1.length)).length + 1) (by omega) (by omega)]
      rfl
  · decide

/-- Witness for C4: the general clauses applied to the type-8 record decoder
at the mismatching head `[33, 0]`. -/
theorem vec_decode_spec_witness :
    vecDecode (tlvRecordDecode 8) [33, 0] = .ok [] [33, 0] :=
  ((vec_decode_spec.1 Buffer (tlvRecordDecode 8)
      (fun _ _ _ h => tlvRecordDecode_length_lt h)).2.1
    [33, 0] 8 33 (by decide) (by decide))

/-- C5: `Option<T>::decode` commits the consumed span on success; turns
`TypeMismatch` and `UnexpectedEndOfStream` into `Ok(None)` with the cursor
untouched; and propagates every other error kind. -/
theorem option_decode_spec :
    (∀ (α : Type) (d : Buffer → PResult α) (b b1 : Buffer) (v : α) (k : Nat),
      d b = .ok v b1 → b1 = b.drop k → k ≤ b.length →
      optionDecode d b = .ok (some v) b1)
    ∧ (∀ (α : Type) (d : Buffer → PResult α) (b : Buffer) (e f : Nat),
        d b = .err (.TypeMismatch e f) → optionDecode d b = .ok none b)
    ∧ (∀ (α : Type) (d : Buffer → PResult α) (b : Buffer),
        d b = .err .UnexpectedEndOfStream → optionDecode d b = .ok none b)
    ∧ (∀ (α : Type) (d : Buffer → PResult α) (b : Buffer),
        d b = .err .UnexpectedLength → optionDecode d b = .err .UnexpectedLength)
    ∧ (∀ (α : Type) (d : Buffer → PResult α) (b : Buffer),
        d b = .err .IOError → optionDecode d b = .err .IOError)
    ∧ optionDecode (tlvRecordDecode 8) [33, 0] = .ok none [33, 0] := by
  refine ⟨fun α d b b1 v k hd hk hkle => ?_,
    fun α d b e f hd => by rw [optionDecode, hd],
    fun α d b hd => by rw [optionDecode, hd],
    fun α d b hd => by rw [optionDecode, hd],
    fun α d b hd => by rw [optionDecode, hd], by decide⟩
  subst hk
  rw [optionDecode, hd]
  dsimp only
  have h2 : b.length - (b.drop k).length = k := by
    rw [List.length_drop]
    omega
  rw [h2]

/-- Witness for C5: a present type-8 record followed by a type-33 record. -/
theorem option_decode_spec_witness :
    optionDecode (tlvRecordDecode 8) [8, 5, 104, 101, 108, 108, 111, 33, 0]
      = .ok (some [104, 101, 108, 108, 111]) [33, 0] :=
  option_decode_spec.1 Buffer (tlvRecordDecode 8)
    [8, 5, 104, 101, 108, 108, 111, 33, 0] [33, 0]
    [104, 101, 108, 108, 111] 7 (by decide) (by decide) (by decide)

/-- C6: with `error_on_critical` set, `find_tlv` succeeds leaving the cursor
at the matching record's type header; fails with `TypeMismatch` on the first
differing critical type; skips a differing non-critical record (type, length
and payload octets) and continues; and fails with `UnexpectedEndOfStream` on
an exhausted buffer. Concretely, an intervening type-127 record is rejected
while a type-126 record is skipped. -/
theorem find_tlv_spec :
    (∀ (T : Nat) (b : Buffer) (t : Nat) (rest : Buffer),
      varNumDecode b = .ok t rest → t = T → findTlv T true b = .ok () b)
    ∧ (∀ (T : Nat) (b : Buffer) (t : Nat) (rest : Buffer),
        varNumDecode b = .ok t rest → t ≠ T → tlvTypCritical t = true →
        findTlv T true b = .err (.TypeMismatch T t))
    ∧ (∀ (T : Nat) (b : Buffer) (t len : Nat) (rest rest2 : Buffer),
        varNumDecode b = .ok t rest → t ≠ T → tlvTypCritical t = false →
        varNumDecode rest = .ok len rest2 → len ≤ rest2.length →
        findTlv T true b = findTlv T true (rest2.drop len))
    ∧ (∀ T : Nat, findTlv T true [] = .err .UnexpectedEndOfStream)
    ∧ findTlv 33 true [127, 0, 33, 0] = .err (.TypeMismatch 33 127)
    ∧ findTlv 33 true [126, 0, 33, 0] = .ok () [33, 0] := by
  have hne : ∀ (b : Buffer) (t : Nat) (rest : Buffer),
      varNumDecode b = .ok t rest → ¬b.isEmpty = true := by
    intro b t rest hd
    cases b with
    | nil => simp [varNumDecode] at hd
    | cons x xs => simp
  refine ⟨fun T b t rest hd ht => ?_, fun T b t rest hd ht hcrit => ?_,
    fun T b t len rest rest2 hd ht hcrit hd2 hlen => ?_,
    fun T => rfl, by decide, by decide⟩
  · rw [findTlv, findTlvAux, if_neg (hne b t rest hd), hd]
    dsimp only
    rw [if_pos ht]
  · rw [findTlv, findTlvAux, if_neg (hne b t rest hd), hd]
    dsimp only
    rw [if_neg ht, if_pos (by simp [hcrit])]
  · have hc1 := varNumDecode_length_lt hd
    have hc2 := varNumDecode_length_lt hd2
    have hdl : (rest2.drop len).length = rest2.length - len :=
      List.length_drop len rest2
    rw [findTlv, findTlvAux, if_neg (hne b t rest hd), hd]
    dsimp only
    rw [if_neg ht, if_neg (by simp [hcrit]), hd2]
    dsimp only
    rw [if_pos hlen, findTlv,
      findTlvAux_fuel T true b.length (rest2.drop len)
        ((rest2.drop len).length + 1) (by omega) (by omega)]

/-- Witness for C6: skipping the non-critical type-126 record and finding
type 33, via the skip and success clauses at the example buffer. -/
theorem find_tlv_spec_witness :
    findTlv 33 true [126, 0, 33, 0] = findTlv 33 true [33, 0]
      ∧ findTlv 33 true [33, 0] = .ok () [33, 0] := by
  constructor
  · have h := find_tlv_spec.2.2.1 33 [126, 0, 33, 0] 126 0 [0, 33, 0] [33, 0]
      (by decide) (by decide) (by decide) (by decide) (by decide)
    simpa using h
  · exact find_tlv_spec.1 33 [33, 0] 33 [0] (by decide) rfl

/-! ## Panic and divergence evidence -/

/-- C1 (refuting evidence): scanning for type 33 in the buffer `[126, 5]` —
a non-critical type-126 record declaring length 5 with no payload octets
remaining — drives `find_tlv` into `cur.advance(5)` on an empty cursor, a
`bytes::Buf` panic, not a typed `TlvError`. -/
theorem find_tlv_panics_on_overlong_skip :
    findTlv 33 true [126, 5] = .panicked := by decide

/-- Once the byte source is exhausted (every read returns zero octets) while
`left_to_read > 0`, the `from_reader` read loop never terminates:
`left_to_read -= bytes_read` subtracts zero, so no fuel bound is ever
enough. -/
theorem readLoopAux_stuck : ∀ (fuel : Nat) (acc : Buffer) (left : Nat),
    0 < left → left ≤ 1024 → readLoopAux [] acc left fuel = none := by
  intro fuel
  induction fuel with
  | zero => intro acc left h0 h1; rfl
  | succ fuel ih =>
    intro acc left h0 h1
    rw [readLoopAux, if_neg (by omega), if_neg (by omega)]
    simp only [List.length_nil, Nat.min_zero, List.drop_nil, List.take_nil,
      List.nil_append, Nat.sub_zero]
    exact ih _ left h0 h1

/-- C3 (refuting evidence): with expected type 7 and a source holding exactly
`[7, 1]` (a record declaring one payload octet that never arrives; every
further read returns zero octets), `Tlv::from_reader` never terminates — for
every iteration bound the read loop is still running, so it neither reports
`UnexpectedEndOfStream` nor returns at all. -/
theorem tlv_from_reader_diverges_on_eof (fuel : Nat) :
    fromReaderCore 7 [7, 1] fuel = none := by
  show readLoopAux [] [7, 1] 1 fuel = none
  exact readLoopAux_stuck fuel [7, 1] 1 (by norm_num) (by norm_num)

/-! ## `size()` agrees with `encode().len()` -/

/-- C9: for every `TlvEncode` implementation of the core — `VarNum`,
`NonNegativeInteger`, the fixed-width unsigned and signed integers, `Bytes`,
`[u8; N]`, `()`, and (given the property for the element type) `Vec<T>` and
`Option<T>` — `size()` equals the length of the buffer `encode()` returns. -/
theorem size_eq_encode_length :
    (∀ v : Nat, (varNumEncode v).length = varNumSize v)
    ∧ (∀ n : NonNegativeInteger, (nniEncode n).length = nniSize n)
    ∧ (∀ w v : Nat, (uintEncode w v).length = w)
    ∧ (∀ (w : Nat) (v : Int), (intEncode w v).length = w)
    ∧ (∀ b : Buffer, (bytesEncode b).length = bytesSize b)
    ∧ (∀ (N : Nat) (f : Fin N → Nat), (arrayEncode N f).length = N)
    ∧ unitEncode.length = 0
    ∧ (∀ (α : Type) (enc : α → Buffer) (sz : α → Nat),
        (∀ x, (enc x).length = sz x) →
        (∀ l : List α, (vecEncode enc l).length = vecSize sz l)
        ∧ (∀ o : Option α, (optionEncode enc o).length = optionSize sz o)) := by
  refine ⟨fun v => ?_, fun n => ?_, fun w v => length_beBytes w v,
    fun w v => length_beBytes w _, fun b => rfl, fun N f => List.length_ofFn f,
    rfl, fun α enc sz h => ⟨fun l => ?_, fun o => ?_⟩⟩
  · rw [varNumEncode, varNumSize]
    split_ifs <;> simp [length_beBytes]
  · cases n <;> simp [nniEncode, nniSize, length_beBytes]
  · induction l with
    | nil => rfl
    | cons x xs ih =>
      simp only [vecEncode, vecSize, List.map_cons, List.flatten_cons,
        List.length_append, List.sum_cons] at ih ⊢
      rw [h x, ih]
  · cases o with
    | none => rfl
    | some v => exact h v

/-- Witness for C9: the container clauses at a concrete `VarNum` list and a
present `VarNum` option, discharging the element-type hypothesis with the
`VarNum` clause. -/
theorem size_eq_encode_length_witness :
    (vecEncode varNumEncode [5, 70000]).length = vecSize varNumSize [5, 70000]
      ∧ (optionEncode varNumEncode (some 70000)).length
        = optionSize varNumSize (some 70000) :=
  ⟨(size_eq_encode_length.2.2.2.2.2.2.2 Nat varNumEncode varNumSize
      size_eq_encode_length.1).1 [5, 70000],
    (size_eq_encode_length.2.2.2.2.2.2.2 Nat varNumEncode varNumSize
      size_eq_encode_length.1).2 (some 70000)⟩

end NdnTlv
